import Mathlib

/-!
Verification of the medicine-tracker repository (solution3-3): a shallow
embedding of its data model (`src/models.py`), JSON storage
(`src/storage.py`), LLM extraction client (`src/llm_client.py`), the
batch reconciliation pipeline (`src/text_parser.py`) and the grid-save
path (`src/service.py`), together with theorems settling the spec claims.

Modelling conventions:
* Python strings are `List Char` (unicode code points), so every string
  operation computes inside the kernel.
* Values decoded from JSON (and the dynamically-typed fields they flow
  into) are a `PyVal` inductive.  JSON numbers are carried as `Int`:
  the repository only ever stores `0.0`/`1.0`-style defaults and never
  does arithmetic on them.
* A Python exception is `none` / a dedicated error constructor.
* The LLM endpoint, the clock and the file system are external
  collaborators; they enter as an explicit environment (`LLMEnv`, a
  `saveOk` flag, an `Option PyVal` file content).
-/

namespace MedTrack

/-- Python strings, modelled as their list of unicode code points. -/
abbrev Str := List Char

/-- Embeds a Lean string literal into the model's string type. -/
def pstr (s : String) : Str := s.data

/-- The whitespace characters removed by Python's `str.strip()`
(ASCII subset; the repository's data never carries exotic unicode
whitespace). -/
def isPySpace (c : Char) : Bool :=
  c == ' ' || c == '\t' || c == '\n' || c == '\r' || c == '\x0b' || c == '\x0c'

/-- Python `str.strip()`: drop leading and trailing whitespace. -/
def pyStrip (s : Str) : Str :=
  ((s.dropWhile isPySpace).reverse.dropWhile isPySpace).reverse

/-- Python `str.lower()`, restricted to ASCII case mapping (the only case
the repository compares: the literal `'none'`). -/
def lowerStr (s : Str) : Str := s.map Char.toLower

/-- Dynamic Python/JSON values, as produced by `json.loads` and stored in
the dynamically-typed fields of the data classes. -/
inductive PyVal where
  | vnull
  | vbool (b : Bool)
  | vint (n : Int)
  | vstr (s : Str)
  | varr (xs : List PyVal)
  | vobj (kvs : List (Str × PyVal))

/-- Python truthiness (`bool(v)`). -/
def PyVal.truthy : PyVal → Bool
  | .vnull => false
  | .vbool b => b
  | .vint n => n != 0
  | .vstr s => !s.isEmpty
  | .varr xs => !xs.isEmpty
  | .vobj kvs => !kvs.isEmpty

/-- Association lookup in a decoded JSON object (each key bound once). -/
def lookupStr (kvs : List (Str × PyVal)) (k : Str) : Option PyVal :=
  match kvs with
  | [] => none
  | (k2, v) :: rest => if k2 = k then some v else lookupStr rest k

/-- Python `v.get(key, default)`: `none` models the `AttributeError`
raised when `v` is not a dict. -/
def pyGet (v : PyVal) (k : Str) (dflt : PyVal) : Option PyVal :=
  match v with
  | .vobj kvs => some ((lookupStr kvs k).getD dflt)
  | _ => none

/-! ## models.py — Entry -/

/-- `models.Entry`: one raw captured text fragment (id, text, timestamp).
Field types follow the shapes the repository itself writes; `from_dict`
below requires them when reading a file back. -/
structure Entry where
  id : Int
  text : Str
  timestamp : Str
deriving DecidableEq

/-- `Entry.to_dict` (via `dataclasses.asdict`). -/
def Entry.to_dict (e : Entry) : PyVal :=
  .vobj [(pstr "id", .vint e.id), (pstr "text", .vstr e.text),
         (pstr "timestamp", .vstr e.timestamp)]

/-- `Entry.from_dict`: reads `data['id']`, `data['text']`,
`data['timestamp']`; `none` models the `KeyError` on a missing key (the
Python code performs no type check, but the only dicts it ever feeds in
carry exactly these shapes, which the model requires). -/
def Entry.from_dict (v : PyVal) : Option Entry :=
  match v with
  | .vobj kvs =>
    match lookupStr kvs (pstr "id"), lookupStr kvs (pstr "text"),
          lookupStr kvs (pstr "timestamp") with
    | some (.vint i), some (.vstr t), some (.vstr ts) => some ⟨i, t, ts⟩
    | _, _, _ => none
  | _ => none

/-- `EntryList.to_dict_list`. -/
def EntryList.to_dict_list (l : List Entry) : List PyVal := l.map Entry.to_dict

/-- `EntryList.from_dict_list` (a list comprehension over `Entry.from_dict`;
an exception on any element propagates, hence `Option`). -/
def EntryList.from_dict_list : List PyVal → Option (List Entry)
  | [] => some []
  | v :: rest =>
    match Entry.from_dict v, EntryList.from_dict_list rest with
    | some e, some es => some (e :: es)
    | _, _ => none

/-- `EntryList.delete_by_id`: keeps the entries whose id differs and
reports whether the list shrank.  Returns (flag, new list). -/
def EntryList.delete_by_id (l : List Entry) (entry_id : Int) : Bool × List Entry :=
  let kept := l.filter (fun e => e.id != entry_id)
  (decide (kept.length < l.length), kept)

/-! ## models.py — StructuredMedicine -/

/-- `models.StructuredMedicine`.  The eight extraction fields are
dynamically typed in Python (whatever the decoded JSON supplied), hence
`PyVal`; `id`, `original_text`, `timestamp` and `confidence` are always
produced by the code itself with fixed shapes. -/
structure StructuredMedicine where
  id : Int
  original_text : Str
  drug_name : PyVal
  brand_name : PyVal
  generic_name : PyVal
  quantity : PyVal
  unit : PyVal
  specification : PyVal
  package_count : PyVal
  expiry_date : PyVal
  timestamp : Str
  confidence : Int

/-- `StructuredMedicine.is_valid`, i.e. `bool(drug_name and drug_name.strip())`:
`some b` is the returned boolean, `none` the `AttributeError` raised by
`.strip()` on a truthy non-string. -/
def StructuredMedicine.is_valid (m : StructuredMedicine) : Option Bool :=
  match m.drug_name with
  | .vstr s => if s.isEmpty then some false else some (!(pyStrip s).isEmpty)
  | v => if v.truthy then none else some false

/-- Result of `StructuredMedicineList.add`: appended, or the
`ValueError` raised on an invalid record, or the `AttributeError`
propagating out of `is_valid`. -/
inductive AddResult where
  | ok (ms : List StructuredMedicine)
  | valueError
  | attrError

/-- `StructuredMedicineList.add`: rejects records failing `is_valid`,
otherwise appends. -/
def StructuredMedicineList.add (ms : List StructuredMedicine)
    (m : StructuredMedicine) : AddResult :=
  match m.is_valid with
  | none => .attrError
  | some false => .valueError
  | some true => .ok (ms ++ [m])

/-- One `setattr(medicine, key, value)` step of `update_by_id`'s kwargs
loop, covering the eight extraction fields (the model's other fields are
not string-keyed assignable here; the claims only exercise these). -/
def StructuredMedicine.setField (m : StructuredMedicine) (k : Str) (v : PyVal) :
    StructuredMedicine :=
  if k = pstr "drug_name" then { m with drug_name := v }
  else if k = pstr "brand_name" then { m with brand_name := v }
  else if k = pstr "generic_name" then { m with generic_name := v }
  else if k = pstr "quantity" then { m with quantity := v }
  else if k = pstr "unit" then { m with unit := v }
  else if k = pstr "specification" then { m with specification := v }
  else if k = pstr "package_count" then { m with package_count := v }
  else if k = pstr "expiry_date" then { m with expiry_date := v }
  else m

/-- `StructuredMedicineList.update_by_id`: finds the first record with the
given id and overwrites the supplied fields in place, with no validity
check.  Returns (found?, new list). -/
def StructuredMedicineList.update_by_id :
    List StructuredMedicine → Int → List (Str × PyVal) →
    Bool × List StructuredMedicine
  | [], _, _ => (false, [])
  | m :: rest, medicine_id, kw =>
    if m.id = medicine_id then
      (true, kw.foldl (fun acc p => acc.setField p.1 p.2) m :: rest)
    else
      let r := StructuredMedicineList.update_by_id rest medicine_id kw
      (r.1, m :: r.2)

/-- `StructuredMedicineList.delete_by_id`. -/
def StructuredMedicineList.delete_by_id (ms : List StructuredMedicine)
    (medicine_id : Int) : Bool × List StructuredMedicine :=
  let kept := ms.filter (fun m => m.id != medicine_id)
  (decide (kept.length < ms.length), kept)

/-- `StructuredMedicine.from_dict` (`cls(**data)`): requires the two
mandatory fields plus `id`, fills the documented defaults for missing
optional keys; `none` models the `TypeError` on a missing mandatory
argument.  No validity check is performed. -/
def StructuredMedicine.from_dict (v : PyVal) : Option StructuredMedicine :=
  match v with
  | .vobj kvs =>
    match lookupStr kvs (pstr "id"), lookupStr kvs (pstr "original_text"),
          lookupStr kvs (pstr "drug_name") with
    | some (.vint i), some (.vstr t), some dn =>
      some { id := i, original_text := t, drug_name := dn,
             brand_name := (lookupStr kvs (pstr "brand_name")).getD (.vstr []),
             generic_name := (lookupStr kvs (pstr "generic_name")).getD (.vstr []),
             quantity := (lookupStr kvs (pstr "quantity")).getD (.vint 0),
             unit := (lookupStr kvs (pstr "unit")).getD (.vstr []),
             specification := (lookupStr kvs (pstr "specification")).getD (.vstr []),
             package_count := (lookupStr kvs (pstr "package_count")).getD (.vstr []),
             expiry_date := (lookupStr kvs (pstr "expiry_date")).getD (.vstr []),
             timestamp := [], confidence := 1 }
    | _, _, _ => none
  | _ => none

/-- `StructuredMedicineList.from_dict_list`: no validity check. -/
def StructuredMedicineList.from_dict_list : List PyVal → Option (List StructuredMedicine)
  | [] => some []
  | v :: rest =>
    match StructuredMedicine.from_dict v, StructuredMedicineList.from_dict_list rest with
    | some m, some ms => some (m :: ms)
    | _, _ => none

/-- The sort key of `sort_by_expiry`:
`m.expiry_date if m.expiry_date else "9999-99-99"`, restricted to its
string projection (`none` when the key would be a truthy non-string, on
which Python's comparison would raise `TypeError`). -/
def StructuredMedicine.expiryKey (m : StructuredMedicine) : Option Str :=
  if m.expiry_date.truthy then
    match m.expiry_date with
    | .vstr s => some s
    | _ => none
  else some (pstr "9999-99-99")

/-- Total string projection of the sort key (meaningful under the
all-strings guard of `sort_by_expiry`). -/
def StructuredMedicine.expiryKeyStr (m : StructuredMedicine) : Str :=
  (m.expiryKey).getD []

/-- Ascending comparison used by `sort_by_expiry`. -/
def expiryLe (a b : StructuredMedicine) : Prop :=
  a.expiryKeyStr ≤ b.expiryKeyStr

/-- Descending comparison (Python `sorted(..., reverse=True)` is the
stable sort under the reversed comparison). -/
def expiryGe (a b : StructuredMedicine) : Prop :=
  b.expiryKeyStr ≤ a.expiryKeyStr

instance : DecidableRel expiryLe :=
  fun a b => inferInstanceAs (Decidable (a.expiryKeyStr ≤ b.expiryKeyStr))

instance : DecidableRel expiryGe :=
  fun a b => inferInstanceAs (Decidable (b.expiryKeyStr ≤ a.expiryKeyStr))

instance : IsTotal StructuredMedicine expiryLe :=
  ⟨fun a b => le_total a.expiryKeyStr b.expiryKeyStr⟩

instance : IsTrans StructuredMedicine expiryLe :=
  ⟨fun _ _ _ h1 h2 => le_trans h1 h2⟩

/-- `StructuredMedicineList.sort_by_expiry`: Python's `sorted` is a
stable sort, rendered here by insertion sort (extensionally the unique
stable sort for the total comparison).  `none` models the `TypeError`
Python raises when a truthy non-string expiry meets the substituted
string key in a comparison. -/
def StructuredMedicineList.sort_by_expiry (ms : List StructuredMedicine)
    (reverse : Bool) : Option (List StructuredMedicine) :=
  if ms.all (fun m => m.expiryKey.isSome) then
    some (if reverse then ms.insertionSort expiryGe else ms.insertionSort expiryLe)
  else none

/-! ## storage.py — JSONStorage -/

/-- The content of a storage file: `none` when missing or unreadable,
`some v` when it holds the JSON value `v`. -/
abbrev FileContent := Option PyVal

/-- `JSONStorage.load`: a missing/corrupt file and a non-array payload
both load as the empty list. -/
def JSONStorage.load (file : FileContent) : List PyVal :=
  match file with
  | none => []
  | some (.varr xs) => xs
  | some _ => []

/-- `JSONStorage.save` on the successful path: the file now holds the
serialized JSON array (an `IOError` would instead leave `False` and the
old content; claim C9 models that flag separately). -/
def JSONStorage.save (data : List PyVal) : FileContent :=
  some (.varr data)

/-! ## llm_client.py — ClaudeClient -/

/-- The external collaborators of `ClaudeClient`:
* `single text` — the outcome of the one-item API call for `text`:
  `none` when the transport throws or the reply is not valid JSON,
  `some v` when the reply parses to the JSON value `v`;
* `batch texts` — the outcome of the batch API call:
  `none` when the transport or `json.loads` throws, `some v` when the
  reply parses to `v`;
* `nowId`/`nowTs` — the millisecond clock id and formatted time the
  code reads when constructing records (one call site per pipeline run
  is collapsed to a single reading, which no claim distinguishes). -/
structure LLMEnv where
  single : Str → Option PyVal
  batch : List Str → Option PyVal
  nowId : Int
  nowTs : Str

/-- `ClaudeClient._fallback_parse`: drug_name is the text split at the
full-width comma when one occurs anywhere, otherwise at the ASCII comma,
first piece, with no trimming; every other field is empty or zero. -/
def fallback_parse (text : Str) : PyVal :=
  .vobj [(pstr "drug_name",
           .vstr (if text.contains '，' then text.takeWhile (fun c => c ≠ '，')
                  else text.takeWhile (fun c => c ≠ ','))),
         (pstr "brand_name", .vstr []),
         (pstr "generic_name", .vstr []),
         (pstr "quantity", .vint 0),
         (pstr "unit", .vstr []),
         (pstr "specification", .vstr []),
         (pstr "package_count", .vstr []),
         (pstr "expiry_date", .vstr [])]

/-- `ClaudeClient.parse_medicine_text`: on any transport/JSON failure the
fallback map is returned; a reply parsing to a non-object also lands in
the fallback (the logging line's `result.get` raises `AttributeError`,
caught by the blanket handler). -/
def parse_medicine_text (env : LLMEnv) (text : Str) : PyVal :=
  match env.single text with
  | some (.vobj kvs) => .vobj kvs
  | some _ => fallback_parse text
  | none => fallback_parse text

/-- `ClaudeClient.parse_medicine_batch`: empty input short-circuits, a
singleton goes through the single-item call, otherwise the batch reply is
used only when it is a JSON array of exactly the input length; in every
other case the call degrades to one `parse_medicine_text` per input. -/
def parse_medicine_batch (env : LLMEnv) (texts : List Str) : List PyVal :=
  match texts with
  | [] => []
  | [t] => [parse_medicine_text env t]
  | _ =>
    match env.batch texts with
    | some (.varr items) =>
      if items.length = texts.length then items
      else texts.map (parse_medicine_text env)
    | some _ => texts.map (parse_medicine_text env)
    | none => texts.map (parse_medicine_text env)

/-- The degrade condition of the batch call: the reply threw, or parsed
to a non-array, or to an array of the wrong length. -/
def batchDegrades (env : LLMEnv) (texts : List Str) : Prop :=
  match env.batch texts with
  | some (.varr items) => items.length ≠ texts.length
  | some _ => True
  | none => True

/-! ## text_parser.py — MedicineParserService -/

/-- `config.LLM_BATCH_SIZE`. -/
def LLM_BATCH_SIZE : Nat := 10

/-- Fixed-size chunking of `range(0, len(entries), batch_size)`, with the
list length as structural fuel. -/
def chunksAux : Nat → List Entry → List (List Entry)
  | 0, _ => []
  | _, [] => []
  | fuel + 1, e :: rest =>
    (e :: rest).take LLM_BATCH_SIZE :: chunksAux fuel ((e :: rest).drop LLM_BATCH_SIZE)

/-- The batches `entries[i:i+batch_size]` of `parse_batch`'s loop. -/
def chunks (entries : List Entry) : List (List Entry) :=
  chunksAux entries.length entries

/-- The `StructuredMedicine.create(...)` call of `parse_batch`'s inner
loop: `none` models the `AttributeError` raised by `.get` when the
parsed element is not a dict. -/
def mkMedicine (env : LLMEnv) (text : Str) (pd : PyVal) : Option StructuredMedicine :=
  match pd with
  | .vobj kvs =>
    some { id := env.nowId,
           original_text := pyStrip text,
           drug_name := (lookupStr kvs (pstr "drug_name")).getD (.vstr []),
           brand_name := (lookupStr kvs (pstr "brand_name")).getD (.vstr []),
           generic_name := (lookupStr kvs (pstr "generic_name")).getD (.vstr []),
           quantity := (lookupStr kvs (pstr "quantity")).getD (.vint 0),
           unit := (lookupStr kvs (pstr "unit")).getD (.vstr []),
           specification := (lookupStr kvs (pstr "specification")).getD (.vstr []),
           package_count := (lookupStr kvs (pstr "package_count")).getD (.vstr []),
           expiry_date := (lookupStr kvs (pstr "expiry_date")).getD (.vstr []),
           timestamp := env.nowTs,
           confidence := 1 }
  | _ => none

/-- One iteration of `parse_batch`'s inner loop: `some m` when the built
record passes `is_valid`, `none` when construction threw, `is_valid`
returned false, or `is_valid` threw (all caught into the failure list). -/
def pairOutcome (env : LLMEnv) (text : Str) (pd : PyVal) : Option StructuredMedicine :=
  match mkMedicine env text pd with
  | some m =>
    match m.is_valid with
    | some true => some m
    | _ => none
  | none => none

/-- The inner loop of `parse_batch` over one chunk's (entry, parsed
element) pairs, accumulating successes and failure texts in order. -/
def processPairs (env : LLMEnv) : List (Entry × PyVal) →
    List StructuredMedicine × List Str
  | [] => ([], [])
  | (e, pd) :: rest =>
    let r := processPairs env rest
    match pairOutcome env e.text pd with
    | some m => (m :: r.1, r.2)
    | none => (r.1, e.text :: r.2)

/-- One chunk of `parse_batch`: call the batch client on the chunk's
texts and map the results back by position.  `parse_medicine_batch`
always returns exactly one element per input
(`parse_medicine_batch_length` below), so the positional indexing
`batch[j]` of the source is total and is rendered as `zip`; the
chunk-level exception handler is unreachable with this client. -/
def processChunk (env : LLMEnv) (batch : List Entry) :
    List StructuredMedicine × List Str :=
  processPairs env (batch.zip (parse_medicine_batch env (batch.map Entry.text)))

/-- The chunk loop of `parse_batch`, concatenating per-chunk successes
and failures in order. -/
def parseChunks (env : LLMEnv) : List (List Entry) →
    List StructuredMedicine × List Str
  | [] => ([], [])
  | c :: cs =>
    let r1 := processChunk env c
    let r2 := parseChunks env cs
    (r1.1 ++ r2.1, r1.2 ++ r2.2)

/-- `MedicineParserService.parse_batch`. -/
def parse_batch (env : LLMEnv) (entries : List Entry) :
    List StructuredMedicine × List Str :=
  parseChunks env (chunks entries)

/-- The add loop of `parse_and_save`: each success record goes through
`StructuredMedicineList.add`; a `ValueError` is caught and turns the
record into a failure (its `original_text` is appended), while an
`AttributeError` would escape the `except ValueError` handler and abort
(`none`). -/
def addLoop : List StructuredMedicine → List StructuredMedicine → List Str →
    Option (List StructuredMedicine × List Str)
  | [], store, failed => some (store, failed)
  | m :: rest, store, failed =>
    match StructuredMedicineList.add store m with
    | .ok store2 => addLoop rest store2 failed
    | .valueError => addLoop rest store (failed ++ [m.original_text])
    | .attrError => none

/-- `MedicineParserService.parse_and_save`: parse all entries, clear the
user's store unless appending, add the successes, persist (the save
result `saveOk` is read and discarded), and return
`(len(success_list), len(failed_list), failed_list)` together with the
in-memory store and the on-disk list after the (possibly failed) save. -/
def parse_and_save (env : LLMEnv) (saveOk : Bool) (entries : List Entry)
    (prior disk : List StructuredMedicine) (append : Bool) :
    Option ((Nat × Nat × List Str) × List StructuredMedicine × List StructuredMedicine) :=
  let sf := parse_batch env entries
  let base := if append then prior else []
  match addLoop sf.1 base sf.2 with
  | some r =>
    let disk2 := if saveOk then r.1 else disk
    some ((sf.1.length, r.2.length, r.2), r.1, disk2)
  | none => none

/-! ## service.py — EntryService grid save -/

/-- One cell of the entries grid.  The grid rendered by `to_dataframe`
holds exactly integers and strings; an edited grid can also hold `None`. -/
inductive Cell where
  | cnull
  | cint (n : Int)
  | cstr (s : Str)
deriving DecidableEq

/-- Decimal digits of a natural number, with the number itself as
structural fuel (`n` has far fewer than `n + 1` digits). -/
def natToStrAux : Nat → Nat → Str
  | 0, _ => []
  | fuel + 1, n =>
    if n < 10 then [Nat.digitChar n]
    else natToStrAux fuel (n / 10) ++ [Nat.digitChar (n % 10)]

/-- Python `str(n)` for a natural number. -/
def natToStr (n : Nat) : Str := natToStrAux (n + 1) n

/-- The ten decimal digit characters. -/
def digitChars : List Char := ['0', '1', '2', '3', '4', '5', '6', '7', '8', '9']

/-- Python `str(n)` for an integer. -/
def intToStr (n : Int) : Str :=
  if n < 0 then '-' :: natToStr n.natAbs else natToStr n.natAbs

/-- Python `str(cell)`. -/
def pyCellStr : Cell → Str
  | .cnull => pstr "None"
  | .cint n => intToStr n
  | .cstr s => s

/-- Python `cell == ''`. -/
def cellIsEmptyStr : Cell → Bool
  | .cstr [] => true
  | _ => false

/-- Value of an accepted integer-format string under Python's
`int(float(s))`; `none` models the `ValueError` on anything else.  The
model accepts plain optionally-signed decimal integers; other float
formats Python would accept never occur here (grid id cells written by
the app are integers, handled by `Cell.cint` directly). -/
def digitsValAux : List Char → Nat → Option Nat
  | [], acc => some acc
  | c :: rest, acc =>
    if c.isDigit then digitsValAux rest (acc * 10 + (c.toNat - 48)) else none

/-- Parse an integer-format string (after stripping). -/
def parseIntStr (s : Str) : Option Int :=
  match pyStrip s with
  | [] => none
  | '-' :: t => if t.isEmpty then none else (digitsValAux t 0).map (fun v => -(v : Int))
  | t => (digitsValAux t 0).map (fun v => (v : Int))

/-- The text-cell filter of `save_dataframe`: a row is dropped when its
text cell is `None`, the empty string, whitespace-only, or the literal
`'none'` (case-insensitive); otherwise the stripped text is kept. -/
def textCellKeep (c : Cell) : Option Str :=
  match c with
  | .cnull => none
  | c =>
    if cellIsEmptyStr c then none
    else if (pyStrip (pyCellStr c)).isEmpty then none
    else if lowerStr (pyStrip (pyCellStr c)) = pstr "none" then none
    else some (pyStrip (pyCellStr c))

/-- The id-cell handling of `save_dataframe`: `None`, blank or `'none'`
cells get a fresh millisecond id, otherwise `int(float(cell))` is taken,
with a parse failure also falling back to a fresh id.  For an integer
cell `int(float(n))` is the identity (entry ids are millisecond
timestamps, far below the 2^53 bound of exact float conversion). -/
def idCellParse (fresh : Int) (c : Cell) : Int :=
  match c with
  | .cnull => fresh
  | c =>
    if (pyStrip (pyCellStr c)).isEmpty then fresh
    else if lowerStr (pyStrip (pyCellStr c)) = pstr "none" then fresh
    else
      match c with
      | .cint n => n
      | .cstr s => (parseIntStr s).getD fresh
      | .cnull => fresh

/-- The timestamp-cell handling of `save_dataframe`: `None`, blank or
`'none'` cells get the current formatted time, otherwise the stripped
string form of the cell. -/
def tsCellParse (nowTs : Str) (c : Cell) : Str :=
  match c with
  | .cnull => nowTs
  | c =>
    if (pyStrip (pyCellStr c)).isEmpty then nowTs
    else if lowerStr (pyStrip (pyCellStr c)) = pstr "none" then nowTs
    else pyStrip (pyCellStr c)

/-- One row of `save_dataframe`'s loop: rows shorter than four cells are
skipped, rows with a blank/`None`/`'none'` text cell are skipped, and a
kept row `[number, text, timestamp, id]` is rebuilt into an entry dict
(the trailing `from_dict_list` reads the same keys straight back). -/
def rowToEntry (fresh : Int) (nowTs : Str) (row : List Cell) : Option Entry :=
  if row.length < 4 then none
  else
    match textCellKeep (row.getD 1 .cnull) with
    | none => none
    | some text =>
      some { id := idCellParse fresh (row.getD 3 .cnull),
             text := text,
             timestamp := tsCellParse nowTs (row.getD 2 .cnull) }

/-- `EntryService.save_dataframe` on a list-shaped grid: the loop appends
the kept rows in grid order, then `new_entries.reverse()` flips them
before they replace the user's entry list. -/
def save_dataframe (fresh : Int) (nowTs : Str) (rows : List (List Cell)) :
    List Entry :=
  (rows.foldl
    (fun acc row =>
      match rowToEntry fresh nowTs row with
      | some e => acc ++ [e]
      | none => acc)
    []).reverse

/-- `Entry.to_dataframe_row`: `[sequence number, text, timestamp, id]`. -/
def Entry.to_dataframe_row (e : Entry) (number : Int) : List Cell :=
  [.cint number, .cstr e.text, .cstr e.timestamp, .cint e.id]

/-- `EntryList.to_dataframe`: rows newest-first (list reversed), numbered
`total - i` down the grid. -/
def EntryList.to_dataframe (l : List Entry) : List (List Cell) :=
  (l.reverse.enum).map (fun p => Entry.to_dataframe_row p.2 ((l.length : Int) - (p.1 : Int)))

/-- An entry whose fields survive a grid round-trip unchanged: text and
timestamp are strip-stable, non-blank and not the literal `'none'`. -/
def gridStable (e : Entry) : Prop :=
  pyStrip e.text = e.text ∧ e.text ≠ [] ∧ lowerStr e.text ≠ pstr "none" ∧
  pyStrip e.timestamp = e.timestamp ∧ e.timestamp ≠ [] ∧
  lowerStr e.timestamp ≠ pstr "none"

instance (e : Entry) : Decidable (gridStable e) :=
  inferInstanceAs (Decidable (_ ∧ _ ∧ _ ∧ _ ∧ _ ∧ _))

/-! ## Sample data for concrete witnesses -/

/-- An environment in which every LLM call fails (transport error or
unparseable reply). -/
def envFail : LLMEnv :=
  { single := fun _ => none, batch := fun _ => none, nowId := 0, nowTs := [] }

/-- An environment whose batch call answers any request with a two-element
JSON array of well-formed field maps. -/
def envOkBatch : LLMEnv :=
  { single := fun _ => none,
    batch := fun _ =>
      some (.varr [.vobj [(pstr "drug_name", .vstr (pstr "A"))],
                   .vobj [(pstr "drug_name", .vstr (pstr "B"))]]),
    nowId := 3, nowTs := pstr "T" }

/-- Sample raw entries. -/
def sampleEntryA : Entry := { id := 1, text := pstr "x", timestamp := [] }

def sampleEntryB : Entry := { id := 2, text := pstr "y", timestamp := [] }

/-- Grid-stable sample entries for the grid round-trip witness. -/
def sampleGridE1 : Entry := { id := 5, text := pstr "apple", timestamp := pstr "t1" }

def sampleGridE2 : Entry := { id := 7, text := pstr "pear", timestamp := pstr "t2" }

/-- A structured record with the given drug name and expiry date and
empty defaults elsewhere. -/
def sampleMed (dn ed : Str) : StructuredMedicine :=
  { id := 1, original_text := [], drug_name := .vstr dn,
    brand_name := .vstr [], generic_name := .vstr [], quantity := .vint 0,
    unit := .vstr [], specification := .vstr [], package_count := .vstr [],
    expiry_date := .vstr ed, timestamp := [], confidence := 1 }

/-! ## Helper lemmas about the pipeline -/

/-- The batch extraction returns exactly one element per input text, on
every path (genuine batch reply, degrade, empty or singleton input). -/
theorem parse_medicine_batch_length (env : LLMEnv) (texts : List Str) :
    (parse_medicine_batch env texts).length = texts.length := by
  match texts with
  | [] => rfl
  | [t] => rfl
  | t1 :: t2 :: ts =>
    simp only [parse_medicine_batch]
    cases h : env.batch (t1 :: t2 :: ts) with
    | none => simp
    | some v =>
      cases v with
      | varr items =>
        by_cases hlen : items.length = (t1 :: t2 :: ts).length
        · simp [List.length_cons, hlen]
        · have hlen2 : ¬items.length = ts.length + 1 + 1 := by
            simpa using hlen
          simp [hlen2]
      | vnull => simp
      | vbool b => simp
      | vint n => simp
      | vstr s => simp
      | vobj kvs => simp

/-- A record surviving the inner loop passed `is_valid`. -/
theorem pairOutcome_valid (env : LLMEnv) (t : Str) (pd : PyVal)
    (m : StructuredMedicine) (h : pairOutcome env t pd = some m) :
    m.is_valid = some true := by
  unfold pairOutcome at h
  cases h1 : mkMedicine env t pd with
  | none => rw [h1] at h; exact absurd h (by simp)
  | some m2 =>
    rw [h1] at h
    simp only at h
    cases h2 : m2.is_valid with
    | none => rw [h2] at h; exact absurd h (by simp)
    | some b =>
      rw [h2] at h
      cases b with
      | false => exact absurd h (by simp)
      | true =>
        simp only [Option.some.injEq] at h
        rw [← h]
        exact h2

/-- Each (entry, parsed element) pair lands in exactly one of the two
output lists of the inner loop. -/
theorem processPairs_length (env : LLMEnv) (pairs : List (Entry × PyVal)) :
    (processPairs env pairs).1.length + (processPairs env pairs).2.length
      = pairs.length := by
  induction pairs with
  | nil => rfl
  | cons p rest ih =>
    obtain ⟨e, pd⟩ := p
    simp only [processPairs]
    cases h : pairOutcome env e.text pd with
    | some m => simp only [List.length_cons]; omega
    | none => simp only [List.length_cons]; omega

/-- Every success record of the inner loop passed `is_valid`. -/
theorem processPairs_valid (env : LLMEnv) (pairs : List (Entry × PyVal))
    (m : StructuredMedicine) (hm : m ∈ (processPairs env pairs).1) :
    m.is_valid = some true := by
  induction pairs with
  | nil => exact absurd hm (by simp [processPairs])
  | cons p rest ih =>
    obtain ⟨e, pd⟩ := p
    simp only [processPairs] at hm
    cases h : pairOutcome env e.text pd with
    | some m2 =>
      rw [h] at hm
      rcases List.mem_cons.mp hm with h2 | h2
      · rw [h2]; exact pairOutcome_valid env e.text pd m2 h
      · exact ih h2
    | none => rw [h] at hm; exact ih hm

/-- One chunk accounts for each of its entries exactly once. -/
theorem processChunk_length (env : LLMEnv) (batch : List Entry) :
    (processChunk env batch).1.length + (processChunk env batch).2.length
      = batch.length := by
  unfold processChunk
  rw [processPairs_length, List.length_zip, parse_medicine_batch_length,
      List.length_map, Nat.min_self]

/-- Chunk-loop accounting: the chunk results concatenate. -/
theorem parseChunks_length (env : LLMEnv) (cs : List (List Entry)) :
    (parseChunks env cs).1.length + (parseChunks env cs).2.length
      = (cs.map List.length).sum := by
  induction cs with
  | nil => rfl
  | cons c rest ih =>
    simp only [parseChunks, List.map_cons, List.sum_cons, List.length_append]
    have hc := processChunk_length env c
    omega

/-- Every success record of the chunk loop passed `is_valid`. -/
theorem parseChunks_valid (env : LLMEnv) (cs : List (List Entry))
    (m : StructuredMedicine) (hm : m ∈ (parseChunks env cs).1) :
    m.is_valid = some true := by
  induction cs with
  | nil => exact absurd hm (by simp [parseChunks])
  | cons c rest ih =>
    simp only [parseChunks] at hm
    rcases List.mem_append.mp hm with h | h
    · exact processPairs_valid env _ m h
    · exact ih h

/-- The chunks partition the entry list. -/
theorem chunksAux_sum (fuel : Nat) :
    ∀ l : List Entry, l.length ≤ fuel →
      ((chunksAux fuel l).map List.length).sum = l.length := by
  induction fuel with
  | zero =>
    intro l hl
    have : l = [] := List.eq_nil_of_length_eq_zero (Nat.le_zero.mp hl)
    rw [this]; rfl
  | succ fuel ih =>
    intro l hl
    match l with
    | [] => rfl
    | e :: rest =>
      simp only [chunksAux, List.map_cons, List.sum_cons]
      rw [ih ((e :: rest).drop LLM_BATCH_SIZE)
            (by
              simp only [List.length_drop, List.length_cons, LLM_BATCH_SIZE] at *
              omega)]
      simp only [List.length_take, List.length_drop, List.length_cons,
                 LLM_BATCH_SIZE]
      omega

/-- `parse_batch` accounting: each input entry produces exactly one
success record or one failure text. -/
theorem parse_batch_length (env : LLMEnv) (entries : List Entry) :
    (parse_batch env entries).1.length + (parse_batch env entries).2.length
      = entries.length := by
  unfold parse_batch chunks
  rw [parseChunks_length, chunksAux_sum entries.length entries (le_refl _)]

/-- Every success record of `parse_batch` passed `is_valid`; the store's
`add` therefore re-checks a predicate these records already satisfy. -/
theorem parse_batch_valid (env : LLMEnv) (entries : List Entry)
    (m : StructuredMedicine) (hm : m ∈ (parse_batch env entries).1) :
    m.is_valid = some true := by
  exact parseChunks_valid env (chunks entries) m hm

/-- The add loop of `parse_and_save` never moves a record that already
passed `is_valid`: it appends all of them and leaves the failure list
untouched. -/
theorem addLoop_spec (succ : List StructuredMedicine) :
    ∀ (store : List StructuredMedicine) (failed : List Str),
      (∀ m ∈ succ, m.is_valid = some true) →
      addLoop succ store failed = some (store ++ succ, failed) := by
  induction succ with
  | nil => intro store failed _; simp [addLoop]
  | cons m rest ih =>
    intro store failed h
    have hm : m.is_valid = some true := h m (List.mem_cons_self m rest)
    simp only [addLoop, StructuredMedicineList.add, hm]
    rw [ih (store ++ [m]) failed (fun x hx => h x (List.mem_cons_of_mem m hx))]
    simp

/-- Closed form of `parse_and_save`: it always succeeds, returns the
`parse_batch` counts and failure texts unchanged, leaves the store as
the (possibly cleared) prior list followed by the success records, and
writes that list to disk exactly when the save succeeded. -/
theorem parse_and_save_spec (env : LLMEnv) (saveOk : Bool)
    (entries : List Entry) (prior disk : List StructuredMedicine)
    (append : Bool) :
    parse_and_save env saveOk entries prior disk append =
      some (((parse_batch env entries).1.length,
             (parse_batch env entries).2.length,
             (parse_batch env entries).2),
            (if append then prior else []) ++ (parse_batch env entries).1,
            if saveOk then
              (if append then prior else []) ++ (parse_batch env entries).1
            else disk) := by
  unfold parse_and_save
  dsimp only
  rw [addLoop_spec (parse_batch env entries).1
        (if append then prior else []) (parse_batch env entries).2
        (parse_batch_valid env entries)]

/-! ## Claim theorems -/

/-- Claim C1: whenever the batch reply throws, is not a JSON array, or is
an array whose length differs from the input, `parse_medicine_batch`
returns exactly one `parse_medicine_text` result per input text, in
input order, reusing nothing from the batch reply. -/
theorem claim1_batch_degrades_to_single (env : LLMEnv) (texts : List Str)
    (h : batchDegrades env texts) :
    parse_medicine_batch env texts = texts.map (parse_medicine_text env) := by
  match texts with
  | [] => rfl
  | [t] => rfl
  | t1 :: t2 :: ts =>
    simp only [parse_medicine_batch]
    unfold batchDegrades at h
    cases hb : env.batch (t1 :: t2 :: ts) with
    | none => simp
    | some v =>
      rw [hb] at h
      cases v with
      | varr items =>
        have hlen2 : ¬items.length = ts.length + 1 + 1 := by simpa using h
        simp [hlen2]
      | vnull => simp
      | vbool b => simp
      | vint n => simp
      | vstr s => simp
      | vobj kvs => simp

/-- Concrete instance of C1: a failing batch call on two texts yields the
two single-item results. -/
theorem claim1_witness :
    parse_medicine_batch envFail [pstr "x", pstr "y"]
      = [parse_medicine_text envFail (pstr "x"),
         parse_medicine_text envFail (pstr "y")] :=
  claim1_batch_degrades_to_single envFail [pstr "x", pstr "y"] trivial

/-- Claim C2: `parse_and_save` returns `(success_count, failure_count,
failure_texts)` with `failure_count` the length of `failure_texts` and
`success_count + failure_count` equal to the number of input entries.
Every record reaching the add loop already carries `is_valid = some true`
— the store's own check is the same predicate the pipeline applied at
extraction time — so the claim's "record moved to the failure list on a
store-side rejection" situation can never arise, and the counts balance
unconditionally. -/
theorem claim2_parse_and_save_accounting (env : LLMEnv) (saveOk : Bool)
    (entries : List Entry) (prior disk : List StructuredMedicine)
    (append : Bool) :
    parse_and_save env saveOk entries prior disk append =
      some (((parse_batch env entries).1.length,
             (parse_batch env entries).2.length,
             (parse_batch env entries).2),
            (if append then prior else []) ++ (parse_batch env entries).1,
            if saveOk then
              (if append then prior else []) ++ (parse_batch env entries).1
            else disk)
    ∧ (parse_batch env entries).1.length + (parse_batch env entries).2.length
        = entries.length
    ∧ ∀ m ∈ (parse_batch env entries).1, m.is_valid = some true :=
  ⟨parse_and_save_spec env saveOk entries prior disk append,
   parse_batch_length env entries,
   parse_batch_valid env entries⟩

/-- Concrete instance of C2's accounting on a two-entry parse. -/
theorem claim2_witness :
    (parse_batch envOkBatch [sampleEntryA, sampleEntryB]).1.length
      + (parse_batch envOkBatch [sampleEntryA, sampleEntryB]).2.length
      = [sampleEntryA, sampleEntryB].length :=
  (claim2_parse_and_save_accounting envOkBatch true
    [sampleEntryA, sampleEntryB] [] [] false).2.1

/-- Claim C5: with `append = false` the resulting store is exactly the
new success records (prior contents removed); with `append = true` the
prior records stay, unchanged and in place, with the success records
appended after them. -/
theorem claim5_append_semantics (env : LLMEnv) (saveOk : Bool)
    (entries : List Entry) (prior disk : List StructuredMedicine) :
    parse_and_save env saveOk entries prior disk false =
      some (((parse_batch env entries).1.length,
             (parse_batch env entries).2.length,
             (parse_batch env entries).2),
            (parse_batch env entries).1,
            if saveOk then (parse_batch env entries).1 else disk)
    ∧ parse_and_save env saveOk entries prior disk true =
      some (((parse_batch env entries).1.length,
             (parse_batch env entries).2.length,
             (parse_batch env entries).2),
            prior ++ (parse_batch env entries).1,
            if saveOk then prior ++ (parse_batch env entries).1 else disk) := by
  constructor
  · simpa using parse_and_save_spec env saveOk entries prior disk false
  · simpa using parse_and_save_spec env saveOk entries prior disk true

/-- Concrete instance of C5: an overwrite save drops the prior record. -/
theorem claim5_witness :
    parse_and_save envOkBatch true [sampleEntryA, sampleEntryB]
        [sampleMed (pstr "Old") []] [] false =
      some (((parse_batch envOkBatch [sampleEntryA, sampleEntryB]).1.length,
             (parse_batch envOkBatch [sampleEntryA, sampleEntryB]).2.length,
             (parse_batch envOkBatch [sampleEntryA, sampleEntryB]).2),
            (parse_batch envOkBatch [sampleEntryA, sampleEntryB]).1,
            if true then (parse_batch envOkBatch [sampleEntryA, sampleEntryB]).1
            else []) :=
  (claim5_append_semantics envOkBatch true [sampleEntryA, sampleEntryB]
    [sampleMed (pstr "Old") []] []).1

/-- Claim C9: the returned triple of `parse_and_save` (and even the
resulting in-memory store) is the same whether the persistence step
succeeded or failed — the save's boolean result is discarded. -/
theorem claim9_save_result_discarded (env : LLMEnv) (b1 b2 : Bool)
    (entries : List Entry) (prior disk : List StructuredMedicine)
    (append : Bool) :
    (parse_and_save env b1 entries prior disk append).map Prod.fst
        = (parse_and_save env b2 entries prior disk append).map Prod.fst
    ∧ (parse_and_save env b1 entries prior disk append).map (fun r => r.2.1)
        = (parse_and_save env b2 entries prior disk append).map (fun r => r.2.1) := by
  rw [parse_and_save_spec, parse_and_save_spec]
  exact ⟨rfl, rfl⟩

/-- Concrete instance of C9: same triple with the save succeeding and
failing. -/
theorem claim9_witness :
    (parse_and_save envOkBatch true [sampleEntryA, sampleEntryB] [] [] false).map Prod.fst
      = (parse_and_save envOkBatch false [sampleEntryA, sampleEntryB] [] [] false).map Prod.fst :=
  (claim9_save_result_discarded envOkBatch true false
    [sampleEntryA, sampleEntryB] [] [] false).1

/-- Counterexample to claim C3: a store holding one valid record, after
`update_by_id` overwrites its `drug_name` with the empty string, holds an
invalid record — `update_by_id` performs no validity check, so the
validity invariant is not preserved by every store operation. -/
theorem claim3_counterexample :
    (sampleMed (pstr "Aspirin") []).is_valid = some true
    ∧ StructuredMedicineList.update_by_id [sampleMed (pstr "Aspirin") []] 1
        [(pstr "drug_name", .vstr [])]
      = (true, [{ sampleMed (pstr "Aspirin") [] with drug_name := PyVal.vstr [] }])
    ∧ ({ sampleMed (pstr "Aspirin") [] with drug_name := PyVal.vstr [] }).is_valid
      = some false :=
  ⟨rfl, rfl, rfl⟩

/-- Amended claim C3: the validity guard lives in `add` alone — a record
enters through `add` only when its `drug_name` is non-empty after
trimming, `add` appends exactly that record, and `add` preserves the
all-valid invariant; `update_by_id` and `from_dict_list` check nothing
(see `claim3_counterexample`). -/
theorem claim3_add_guards_validity (ms : List StructuredMedicine)
    (m : StructuredMedicine) (ms2 : List StructuredMedicine)
    (h : StructuredMedicineList.add ms m = .ok ms2) :
    m.is_valid = some true ∧ ms2 = ms ++ [m]
    ∧ ((∀ x ∈ ms, x.is_valid = some true) →
        ∀ x ∈ ms2, x.is_valid = some true) := by
  unfold StructuredMedicineList.add at h
  cases h2 : m.is_valid with
  | none => rw [h2] at h; exact absurd h (by simp)
  | some b =>
    rw [h2] at h
    cases b with
    | false => exact absurd h (by simp)
    | true =>
      have hms : ms ++ [m] = ms2 := by
        injection h
      refine ⟨rfl, hms.symm, ?_⟩
      intro hall x hx
      rw [← hms] at hx
      rcases List.mem_append.mp hx with h3 | h3
      · exact hall x h3
      · rw [List.mem_singleton.mp h3]
        exact h2

/-- Concrete instance of the amended C3: a record accepted by `add` is
valid. -/
theorem claim3_witness : (sampleMed (pstr "B") []).is_valid = some true :=
  (claim3_add_guards_validity [] (sampleMed (pstr "B") [])
    [sampleMed (pstr "B") []] rfl).1

/-- Counterexample to claim C4: with a failing LLM call on
`" a ,b"`, the fallback's `drug_name` is the untrimmed prefix `" a "`,
while the claim's "split and trimmed" value would be `"a"`. -/
theorem claim4_counterexample :
    pyGet (parse_medicine_text envFail (pstr " a ,b")) (pstr "drug_name") (.vstr [])
      = some (.vstr (pstr " a "))
    ∧ pyStrip ((pstr " a ,b").takeWhile (fun c => c ≠ ',')) = pstr "a"
    ∧ pstr " a " ≠ pstr "a" :=
  ⟨rfl, by decide, by decide⟩

/-- Amended claim C4: on a transport failure or malformed JSON reply, the
single-item extraction propagates no error and returns the fallback
field map, whose `drug_name` is the input text cut at the full-width
comma when one occurs (else at the ASCII comma), first piece, with no
trimming, and whose every other field is the empty string or zero. -/
theorem claim4_fallback_shape (env : LLMEnv) (text : Str)
    (h : env.single text = none) :
    pyGet (parse_medicine_text env text) (pstr "drug_name") (.vstr [])
      = some (.vstr (if text.contains '，' then text.takeWhile (fun c => c ≠ '，')
                     else text.takeWhile (fun c => c ≠ ',')))
    ∧ pyGet (parse_medicine_text env text) (pstr "brand_name") (.vstr [])
      = some (.vstr [])
    ∧ pyGet (parse_medicine_text env text) (pstr "generic_name") (.vstr [])
      = some (.vstr [])
    ∧ pyGet (parse_medicine_text env text) (pstr "quantity") (.vstr [])
      = some (.vint 0)
    ∧ pyGet (parse_medicine_text env text) (pstr "unit") (.vstr [])
      = some (.vstr [])
    ∧ pyGet (parse_medicine_text env text) (pstr "specification") (.vstr [])
      = some (.vstr [])
    ∧ pyGet (parse_medicine_text env text) (pstr "package_count") (.vstr [])
      = some (.vstr [])
    ∧ pyGet (parse_medicine_text env text) (pstr "expiry_date") (.vstr [])
      = some (.vstr []) := by
  unfold parse_medicine_text
  rw [h]
  exact ⟨rfl, rfl, rfl, rfl, rfl, rfl, rfl, rfl⟩

/-- Concrete instance of the amended C4. -/
theorem claim4_witness :
    pyGet (parse_medicine_text envFail (pstr "u,v")) (pstr "drug_name") (.vstr [])
      = some (.vstr (if (pstr "u,v").contains '，'
                     then (pstr "u,v").takeWhile (fun c => c ≠ '，')
                     else (pstr "u,v").takeWhile (fun c => c ≠ ','))) :=
  (claim4_fallback_shape envFail (pstr "u,v") rfl).1

/-- Claim C7: serializing an entry list through the JSON store and
loading it back restores the list field-for-field, in order. -/
theorem claim7_roundtrip (l : List Entry) :
    EntryList.from_dict_list
        (JSONStorage.load (JSONStorage.save (EntryList.to_dict_list l)))
      = some l := by
  have key : ∀ xs : List Entry,
      EntryList.from_dict_list (EntryList.to_dict_list xs) = some xs := by
    intro xs
    induction xs with
    | nil => rfl
    | cons e rest ih =>
      simp only [EntryList.to_dict_list, List.map_cons] at *
      simp only [EntryList.from_dict_list]
      rw [show Entry.from_dict (Entry.to_dict e) = some e from rfl, ih]
  exact key l

/-- Concrete instance of C7. -/
theorem claim7_witness :
    EntryList.from_dict_list
        (JSONStorage.load (JSONStorage.save
          (EntryList.to_dict_list [sampleGridE1, sampleGridE2])))
      = some [sampleGridE1, sampleGridE2] :=
  claim7_roundtrip [sampleGridE1, sampleGridE2]

/-- Claim C8: `delete_by_id` keeps exactly the rows whose id differs (all
matches removed, not only the first) and reports `true` precisely when
some row matched — for the raw entry list and the structured list alike. -/
theorem claim8_delete_all_matches (l : List Entry)
    (ms : List StructuredMedicine) (i : Int) :
    ((EntryList.delete_by_id l i).1 = true ↔ ∃ e ∈ l, e.id = i)
    ∧ (EntryList.delete_by_id l i).2 = l.filter (fun e => e.id != i)
    ∧ (∀ e ∈ (EntryList.delete_by_id l i).2, e.id ≠ i)
    ∧ ((StructuredMedicineList.delete_by_id ms i).1 = true ↔ ∃ m ∈ ms, m.id = i)
    ∧ (StructuredMedicineList.delete_by_id ms i).2 = ms.filter (fun m => m.id != i)
    ∧ (∀ m ∈ (StructuredMedicineList.delete_by_id ms i).2, m.id ≠ i) := by
  refine ⟨?_, rfl, ?_, ?_, rfl, ?_⟩
  · simp only [EntryList.delete_by_id, decide_eq_true_eq]
    rw [List.length_filter_lt_length_iff_exists]
    simp
  · intro e he
    simp only [EntryList.delete_by_id] at he
    have h2 := (List.mem_filter.mp he).2
    simpa using h2
  · simp only [StructuredMedicineList.delete_by_id, decide_eq_true_eq]
    rw [List.length_filter_lt_length_iff_exists]
    simp
  · intro m hm
    simp only [StructuredMedicineList.delete_by_id] at hm
    have h2 := (List.mem_filter.mp hm).2
    simpa using h2

/-- Concrete instance of C8: deleting id 5 from a store containing it
reports success. -/
theorem claim8_witness : ∃ e ∈ [sampleGridE1], e.id = 5 :=
  ((claim8_delete_all_matches [sampleGridE1] [] 5).1).mp (by decide)

/-- Claim C6: ascending `sort_by_expiry` permutes the records into
non-decreasing order of the substituted key (the `expiry_date` string,
with `"9999-99-99"` standing in for an empty one), and on expiry dates
`["2025-06", "", "2024-01"]` it yields the order
`["2024-01", "2025-06", ""]`, the empty date sorting last. -/
theorem claim6_sort_by_expiry :
    (∀ ms l : List StructuredMedicine,
        StructuredMedicineList.sort_by_expiry ms false = some l →
        l.Perm ms ∧ l.Sorted expiryLe)
    ∧ StructuredMedicineList.sort_by_expiry
        [sampleMed (pstr "a") (pstr "2025-06"), sampleMed (pstr "b") [],
         sampleMed (pstr "c") (pstr "2024-01")] false
      = some [sampleMed (pstr "c") (pstr "2024-01"),
              sampleMed (pstr "a") (pstr "2025-06"),
              sampleMed (pstr "b") []]
    ∧ (sampleMed (pstr "b") []).expiryKey = some (pstr "9999-99-99") := by
  refine ⟨?_, rfl, rfl⟩
  intro ms l h
  unfold StructuredMedicineList.sort_by_expiry at h
  by_cases hall : ms.all (fun m => m.expiryKey.isSome) = true
  · rw [if_pos hall] at h
    simp only [Bool.false_eq_true, if_false, Option.some.injEq] at h
    rw [← h]
    exact ⟨List.perm_insertionSort expiryLe ms,
           List.sorted_insertionSort expiryLe ms⟩
  · rw [if_neg hall] at h
    exact absurd h (by simp)

/-- Concrete instance of C6's general part, at the three-record list of
the claim's example. -/
theorem claim6_witness :
    ([sampleMed (pstr "c") (pstr "2024-01"),
      sampleMed (pstr "a") (pstr "2025-06"),
      sampleMed (pstr "b") []]).Perm
        [sampleMed (pstr "a") (pstr "2025-06"), sampleMed (pstr "b") [],
         sampleMed (pstr "c") (pstr "2024-01")]
    ∧ ([sampleMed (pstr "c") (pstr "2024-01"),
        sampleMed (pstr "a") (pstr "2025-06"),
        sampleMed (pstr "b") []]).Sorted expiryLe :=
  claim6_sort_by_expiry.1
    [sampleMed (pstr "a") (pstr "2025-06"), sampleMed (pstr "b") [],
     sampleMed (pstr "c") (pstr "2024-01")]
    [sampleMed (pstr "c") (pstr "2024-01"),
     sampleMed (pstr "a") (pstr "2025-06"), sampleMed (pstr "b") []]
    rfl

/-! ## Helper lemmas for the grid round-trip (C10) -/

/-- Every character printed for a natural number is a decimal digit. -/
theorem natToStrAux_mem (fuel : Nat) :
    ∀ (n : Nat) (c : Char), c ∈ natToStrAux fuel n → c ∈ digitChars := by
  induction fuel with
  | zero => intro n c hc; exact absurd hc (by simp [natToStrAux])
  | succ fuel ih =>
    intro n c hc
    have hd : ∀ k, k < 10 → Nat.digitChar k ∈ digitChars := by decide
    simp only [natToStrAux] at hc
    by_cases h : n < 10
    · rw [if_pos h] at hc
      rw [List.mem_singleton] at hc
      rw [hc]
      exact hd n h
    · rw [if_neg h] at hc
      rcases List.mem_append.mp hc with h2 | h2
      · exact ih (n / 10) c h2
      · rw [List.mem_singleton] at h2
        rw [h2]
        exact hd (n % 10) (Nat.mod_lt n (by norm_num))

/-- The decimal print of a natural number is never empty. -/
theorem natToStr_ne_nil (n : Nat) : natToStr n ≠ [] := by
  unfold natToStr
  simp only [natToStrAux]
  by_cases h : n < 10
  · rw [if_pos h]; simp
  · rw [if_neg h]; simp

/-- Every character printed for an integer is a sign or a digit. -/
theorem intToStr_mem (n : Int) (c : Char) (hc : c ∈ intToStr n) :
    c ∈ '-' :: digitChars := by
  unfold intToStr at hc
  by_cases h : n < 0
  · rw [if_pos h] at hc
    rcases List.mem_cons.mp hc with h2 | h2
    · rw [h2]; exact List.mem_cons_self _ _
    · exact List.mem_cons_of_mem _ (natToStrAux_mem _ _ c h2)
  · rw [if_neg h] at hc
    exact List.mem_cons_of_mem _ (natToStrAux_mem _ _ c hc)

/-- The decimal print of an integer is never empty. -/
theorem intToStr_ne_nil (n : Int) : intToStr n ≠ [] := by
  unfold intToStr
  by_cases h : n < 0
  · rw [if_pos h]; simp
  · rw [if_neg h]; exact natToStr_ne_nil _

/-- Signs and digits are not whitespace. -/
theorem digit_nonspace : ∀ c ∈ '-' :: digitChars, isPySpace c = false := by
  decide

/-- `dropWhile` is the identity when no character satisfies the predicate. -/
theorem dropWhile_eq_self_of_none (p : Char → Bool) (s : Str)
    (h : ∀ c ∈ s, p c = false) : s.dropWhile p = s := by
  cases s with
  | nil => rfl
  | cons c t =>
    have hc : p c = false := h c (List.mem_cons_self _ _)
    simp [List.dropWhile_cons, hc]

/-- Stripping a string with no whitespace characters is the identity. -/
theorem pyStrip_eq_self (s : Str) (h : ∀ c ∈ s, isPySpace c = false) :
    pyStrip s = s := by
  unfold pyStrip
  rw [dropWhile_eq_self_of_none _ _ h]
  rw [dropWhile_eq_self_of_none _ _ (fun c hc => h c (List.mem_reverse.mp hc))]
  exact List.reverse_reverse s

/-- Stripping a printed integer changes nothing. -/
theorem intToStr_strip (n : Int) : pyStrip (intToStr n) = intToStr n :=
  pyStrip_eq_self _ (fun c hc => digit_nonspace c (intToStr_mem n c hc))

/-- A lower-cased sign-or-digit string is never the literal `'none'`. -/
theorem lowerStr_ne_none (s : Str) (hne : s ≠ [])
    (h : ∀ c ∈ s, c ∈ '-' :: digitChars) : lowerStr s ≠ pstr "none" := by
  cases s with
  | nil => exact absurd rfl hne
  | cons c t =>
    intro heq
    unfold lowerStr at heq
    rw [List.map_cons] at heq
    rw [show pstr "none" = 'n' :: 'o' :: 'n' :: 'e' :: [] from rfl] at heq
    have h1 : Char.toLower c = 'n' := by injection heq
    have h2 : c ∈ '-' :: digitChars := h c (List.mem_cons_self _ _)
    have h3 : ∀ x ∈ '-' :: digitChars, Char.toLower x ≠ 'n' := by decide
    exact h3 c h2 h1

/-- An integer id cell survives the grid save unchanged. -/
theorem idCellParse_int (fresh n : Int) : idCellParse fresh (Cell.cint n) = n := by
  have hemp : (pyStrip (pyCellStr (Cell.cint n))).isEmpty = false := by
    simp only [pyCellStr, intToStr_strip]
    cases hh : (intToStr n).isEmpty with
    | false => rfl
    | true => exact absurd (by simpa using hh) (intToStr_ne_nil n)
  have hnone : ¬lowerStr (pyStrip (pyCellStr (Cell.cint n))) = pstr "none" := by
    simp only [pyCellStr, intToStr_strip]
    exact lowerStr_ne_none _ (intToStr_ne_nil n) (intToStr_mem n)
  simp only [idCellParse, hemp, hnone]
  simp

/-- A kept text cell comes back stripped; for a grid-stable text that is
the identity. -/
theorem textCellKeep_str (t : Str) (h1 : pyStrip t = t) (h2 : t ≠ [])
    (h3 : lowerStr t ≠ pstr "none") : textCellKeep (Cell.cstr t) = some t := by
  have hemp : cellIsEmptyStr (Cell.cstr t) = false := by
    cases t with
    | nil => exact absurd rfl h2
    | cons c t2 => rfl
  have hie : (pyStrip (pyCellStr (Cell.cstr t))).isEmpty = false := by
    simp only [pyCellStr, h1]
    cases hh : t.isEmpty with
    | false => rfl
    | true => exact absurd (by simpa using hh) h2
  have hnone : ¬lowerStr (pyStrip (pyCellStr (Cell.cstr t))) = pstr "none" := by
    simp only [pyCellStr, h1]
    exact h3
  simp only [textCellKeep, hemp, hie, hnone]
  simp [pyCellStr, h1]

/-- A grid-stable timestamp cell survives unchanged. -/
theorem tsCellParse_str (nowTs t : Str) (h1 : pyStrip t = t) (h2 : t ≠ [])
    (h3 : lowerStr t ≠ pstr "none") : tsCellParse nowTs (Cell.cstr t) = t := by
  have hie : (pyStrip (pyCellStr (Cell.cstr t))).isEmpty = false := by
    simp only [pyCellStr, h1]
    cases hh : t.isEmpty with
    | false => rfl
    | true => exact absurd (by simpa using hh) h2
  have hnone : ¬lowerStr (pyStrip (pyCellStr (Cell.cstr t))) = pstr "none" := by
    simp only [pyCellStr, h1]
    exact h3
  simp only [tsCellParse, hie, hnone]
  simp [pyCellStr, h1]

/-- A grid row rendered from a grid-stable entry is rebuilt into exactly
that entry, whatever its displayed sequence number. -/
theorem rowToEntry_row (e : Entry) (num fresh : Int) (nowTs : Str)
    (hs : gridStable e) :
    rowToEntry fresh nowTs (Entry.to_dataframe_row e num) = some e := by
  obtain ⟨h1, h2, h3, h4, h5, h6⟩ := hs
  unfold rowToEntry Entry.to_dataframe_row
  simp only [List.length_cons, List.length_nil]
  rw [if_neg (by omega)]
  simp only [List.getD_cons_succ, List.getD_cons_zero]
  rw [textCellKeep_str e.text h1 h2 h3]
  rw [idCellParse_int fresh e.id, tsCellParse_str nowTs e.timestamp h4 h5 h6]

/-- The imperative accumulation of `save_dataframe` is append-filterMap. -/
theorem saveDf_foldl (fresh : Int) (nowTs : Str) :
    ∀ (rows : List (List Cell)) (acc : List Entry),
      rows.foldl
        (fun acc row =>
          match rowToEntry fresh nowTs row with
          | some e => acc ++ [e]
          | none => acc) acc
      = acc ++ rows.filterMap (rowToEntry fresh nowTs) := by
  intro rows
  induction rows with
  | nil => intro acc; simp
  | cons r rest ih =>
    intro acc
    simp only [List.foldl_cons, List.filterMap_cons]
    cases h : rowToEntry fresh nowTs r with
    | none => rw [ih]
    | some e => rw [ih]; simp

/-- Rendering a grid-stable entry list and re-reading the rows restores
the list (still in display order), whatever the numbering offset. -/
theorem enumRows_roundtrip (fresh : Int) (nowTs : Str) (total : Int) :
    ∀ (xs : List Entry) (k : Nat), (∀ e ∈ xs, gridStable e) →
      (xs.enumFrom k).filterMap
          (fun p => rowToEntry fresh nowTs
            (Entry.to_dataframe_row p.2 (total - (p.1 : Int))))
        = xs := by
  intro xs
  induction xs with
  | nil => intro k _; rfl
  | cons e t ih =>
    intro k h
    simp only [List.enumFrom, List.filterMap_cons]
    rw [show rowToEntry fresh nowTs
          (Entry.to_dataframe_row e (total - (k : Int))) = some e from
        rowToEntry_row e (total - (k : Int)) fresh nowTs
          (h e (List.mem_cons_self _ _))]
    rw [ih (k + 1) (fun x hx => h x (List.mem_cons_of_mem _ hx))]

/-- Claim C10: `save_dataframe` stores the kept rows in reverse grid
order, and therefore the newest-first grid produced by `to_dataframe`
round-trips: saving the rendered grid of a grid-stable entry list
restores exactly that list. -/
theorem claim10_grid_save_reverse :
    (∀ (fresh : Int) (nowTs : Str) (rows : List (List Cell)),
        save_dataframe fresh nowTs rows
          = (rows.filterMap (rowToEntry fresh nowTs)).reverse)
    ∧ (∀ (fresh : Int) (nowTs : Str) (l : List Entry),
        (∀ e ∈ l, gridStable e) →
        save_dataframe fresh nowTs (EntryList.to_dataframe l) = l) := by
  have partA : ∀ (fresh : Int) (nowTs : Str) (rows : List (List Cell)),
      save_dataframe fresh nowTs rows
        = (rows.filterMap (rowToEntry fresh nowTs)).reverse := by
    intro fresh nowTs rows
    unfold save_dataframe
    rw [saveDf_foldl fresh nowTs rows []]
    simp
  refine ⟨partA, ?_⟩
  intro fresh nowTs l h
  rw [partA]
  unfold EntryList.to_dataframe
  rw [List.filterMap_map]
  rw [show l.reverse.enum = l.reverse.enumFrom 0 from rfl]
  simp only [Function.comp_def]
  rw [enumRows_roundtrip fresh nowTs (l.length : Int) l.reverse 0
        (fun e he => h e (List.mem_reverse.mp he))]
  exact List.reverse_reverse l

/-- Concrete instance of C10: the two-entry grid round-trips. -/
theorem claim10_witness :
    save_dataframe 99 (pstr "now")
        (EntryList.to_dataframe [sampleGridE1, sampleGridE2])
      = [sampleGridE1, sampleGridE2] :=
  claim10_grid_save_reverse.2 99 (pstr "now") [sampleGridE1, sampleGridE2]
    (by decide)

end MedTrack
